import Mathlib

/-!
Shallow embedding of the batch converter in `src/main.py`.

The program walks a directory tree, parses two fixed-name XML descriptor
files per directory (`0.txt` and `8.txt`), converts planar coordinates via
an external geodesy library, and writes a seven-column CSV.

Modelling choices, each mirroring one construct of the source:
* an XML document already parsed by the external XML library is an
  `XmlElem`; a file whose content fails to parse (an `ET.ParseError`) is
  represented by `none`, matching the `try/except ET.ParseError` blocks;
* Python dictionaries with string keys are association lists with the
  Python assignment semantics (update in place, else append);
* the external coordinate transformer (`pyproj`) is an abstract function
  argument of type `Transform`; the `except` around the call maps to its
  `Except` result;
* the filesystem entries the program touches are modelled explicitly:
  a path may be absent, a regular file, or a directory.  `os.path.exists`
  is true on the latter two; `open` on a directory raises
  `IsADirectoryError`, which no handler in the source catches, so the
  embedding propagates it through `Except PyError`;
* the Python builtin `float` applied to a string is modelled by
  `pyFloat?` below.
-/

/-- A parsed XML element: tag, attributes, direct children.  The program
only ever inspects the direct children of the root element. -/
inductive XmlElem where
  | mk (tag : String) (attrs : List (String × String)) (children : List XmlElem)

def XmlElem.tag : XmlElem → String
  | .mk t _ _ => t

def XmlElem.attrs : XmlElem → List (String × String)
  | .mk _ a _ => a

def XmlElem.children : XmlElem → List XmlElem
  | .mk _ _ c => c

/-- `root.find(nm)` of the XML library: the first direct child whose tag
is `nm`, if any. -/
def findChild (root : XmlElem) (nm : String) : Option XmlElem :=
  root.children.find? (fun c => c.tag == nm)

/-- `elem.get(attr, dflt)`: the value of the attribute, or the default
when the attribute is absent. -/
def attrGet (e : XmlElem) (attr : String) (dflt : String) : String :=
  match e.attrs.lookup attr with
  | some v => v
  | none => dflt

/-- A Python float value as far as this program observes it. -/
inductive PyFloat where
  | finite (q : Rat)
  | inf (negative : Bool)
  | nan
deriving DecidableEq

def digitsVal (cs : List Char) : Nat :=
  cs.foldl (fun a c => a * 10 + (c.toNat - 48)) 0

def isPyWhitespace (c : Char) : Bool :=
  c == ' ' || c == '\t' || c == '\n' || c == '\r' || c == '\x0b' || c == '\x0c'

/-- Strip leading and trailing whitespace, as `str.strip` would. -/
def trimChars (cs : List Char) : List Char :=
  ((cs.dropWhile isPyWhitespace).reverse.dropWhile isPyWhitespace).reverse

/-- ASCII lowercasing of one character. -/
def lowerChar (c : Char) : Char :=
  if 65 ≤ c.toNat && c.toNat ≤ 90 then Char.ofNat (c.toNat + 32) else c

/-- Split a character list at every occurrence of the separator. -/
def splitOnChar (sep : Char) : List Char → List (List Char)
  | [] => [[]]
  | c :: rest =>
      match splitOnChar sep rest with
      | [] => if c == sep then [[], []] else [[c]]
      | h :: t => if c == sep then [] :: h :: t else (c :: h) :: t

def parseDigits (cs : List Char) : Option Nat :=
  if !cs.isEmpty && cs.all Char.isDigit then some (digitsVal cs) else none

/-- The digit part of a float literal: `123`, `123.45`, `123.`, `.45`. -/
def parseMantissa (cs : List Char) : Option Rat :=
  match splitOnChar '.' cs with
  | [ip] => (parseDigits ip).map (fun n => (n : Rat))
  | [ip, fp] =>
      if ip.isEmpty && fp.isEmpty then none
      else if (ip.isEmpty || ip.all Char.isDigit)
           && (fp.isEmpty || fp.all Char.isDigit) then
        some ((digitsVal ip : Rat) + (digitsVal fp : Rat) / ((10 : Rat) ^ fp.length))
      else none
  | _ => none

def stripSign : List Char → Bool × List Char
  | '-' :: rest => (true, rest)
  | '+' :: rest => (false, rest)
  | cs => (false, cs)

def parseExp (cs : List Char) : Option Int :=
  match stripSign cs with
  | (neg, ds) => (parseDigits ds).map (fun n => if neg then -(n : Int) else (n : Int))

/-- A float literal without sign: mantissa with optional exponent part. -/
def parseNumeric (cs : List Char) : Option Rat :=
  match splitOnChar 'e' cs with
  | [m] => parseMantissa m
  | [m, e] =>
      match parseMantissa m, parseExp e with
      | some mv, some ev => some (mv * (10 : Rat) ^ ev)
      | _, _ => none
  | _ => none

/-- Models the Python builtin `float` on a string: surrounding whitespace
is trimmed, then an optional sign followed by `inf`, `infinity` or `nan`
(case-insensitive) or a decimal literal with optional fraction and
exponent.  `none` models the `ValueError` the builtin raises otherwise.
Digit-group underscores and non-ASCII digits are not modelled. -/
def pyFloat? (s : String) : Option PyFloat :=
  match stripSign ((trimChars s.toList).map lowerChar) with
  | (neg, body) =>
    if body == "inf".toList || body == "infinity".toList then some (PyFloat.inf neg)
    else if body == "nan".toList then some PyFloat.nan
    else (parseNumeric body).map (fun q => PyFloat.finite (if neg then -q else q))

/-- A value stored in a record dictionary: the program stores strings
everywhere except `latitude` and `longitude` on a successful transform,
which hold floats. -/
inductive Value where
  | s (v : String)
  | n (v : PyFloat)
deriving DecidableEq

/-- A Python dictionary with string keys, as an insertion-ordered
association list. -/
abbrev Record := List (String × Value)

/-- Python `d[k] = v`: update in place when the key is present, else
append at the end. -/
def dinsert : Record → String → Value → Record
  | [], k, v => [(k, v)]
  | (k', v') :: rest, k, v =>
      if k' == k then (k, v) :: rest else (k', v') :: dinsert rest k v

/-- Python `d.get(k)` as an `Option`. -/
def dget (d : Record) (k : String) : Option Value :=
  d.lookup k

/-- Python `{**a, **b}`: start from `a` and assign every pair of `b` in
order. -/
def dmerge (a b : Record) : Record :=
  b.foldl (fun acc kv => dinsert acc kv.1 kv.2) a

/-- The external coordinate transformer from EPSG:29903 to EPSG:4326 with
`always_xy`: `(easting, northing)` to `(longitude, latitude)`, or an
exception.  The source/target CRS being constants, the transformer is a
single abstract function. -/
abbrev Transform := PyFloat → PyFloat → Except Unit (PyFloat × PyFloat)

/-- `parse_0_txt` of `src/main.py` on the XML parse result of the file
content (`none` is a parse error, returning `None`). -/
def parse_0_txt (t : Transform) (doc : Option XmlElem) : Option Record :=
  match doc with
  | none => none
  | some root =>
    match findChild root "projection" with
    | some projectionElem =>
        let projX := attrGet projectionElem "x" ""
        let projY := attrGet projectionElem "y" ""
        let record := dinsert (dinsert [] "projection_x" (Value.s projX))
          "projection_y" (Value.s projY)
        match pyFloat? projX with
        | none =>
            some (dinsert (dinsert record "latitude" (Value.s ""))
              "longitude" (Value.s ""))
        | some easting =>
          match pyFloat? projY with
          | none =>
              some (dinsert (dinsert record "latitude" (Value.s ""))
                "longitude" (Value.s ""))
          | some northing =>
            match t easting northing with
            | Except.ok (longitude, latitude) =>
                some (dinsert (dinsert record "latitude" (Value.n latitude))
                  "longitude" (Value.n longitude))
            | Except.error _ =>
                some (dinsert (dinsert record "latitude" (Value.s ""))
                  "longitude" (Value.s ""))
    | none =>
        some (dinsert (dinsert (dinsert (dinsert []
          "projection_x" (Value.s "")) "projection_y" (Value.s ""))
          "latitude" (Value.s "")) "longitude" (Value.s ""))

/-- The declarative element list of `parse_8_txt`:
(element name, output key, attribute name). -/
def elementsList : List (String × String × String) :=
  [("name", "name", "htmlText"),
   ("translation", "translation", "htmlText"),
   ("explanation", "description", "htmlText")]

/-- `parse_8_txt` of `src/main.py` on the XML parse result of the file
content. -/
def parse_8_txt (doc : Option XmlElem) : Option Record :=
  match doc with
  | none => none
  | some root =>
      some (elementsList.foldl
        (fun record entry =>
          match entry with
          | (elemName, keyName, attrName) =>
            match findChild root elemName with
            | some e => dinsert record keyName (Value.s (attrGet e attrName ""))
            | none => dinsert record keyName (Value.s ""))
        [])

/-- What sits at a filesystem path that exists: a regular file whose
content gives an XML parse result, or a directory. -/
inductive Entry where
  | file (doc : Option XmlElem)
  | dir

def Entry.isFile : Entry → Bool
  | .file _ => true
  | .dir => false

/-- The two descriptor paths inside one `menuTabs` directory; `none`
means the path does not exist. -/
structure MenuDir where
  file0 : Option Entry
  file8 : Option Entry

/-- An exception no handler in the source catches. -/
inductive PyError where
  | isADirectoryError
deriving DecidableEq

/-- `open(p).read()` followed by `ET.fromstring`: a regular file yields
its parse result; a directory raises `IsADirectoryError`. -/
def readDoc : Entry → Except PyError (Option XmlElem)
  | .file doc => Except.ok doc
  | .dir => Except.error PyError.isADirectoryError

/-- `process_directory` of `src/main.py`.  The `os.path.exists` checks
are the outer match (an existing directory also passes them); the two
parses then read the files in order. -/
def process_directory (t : Transform) (d : MenuDir) : Except PyError (Option Record) :=
  match d.file0, d.file8 with
  | some entry0, some entry8 => do
      let doc0 ← readDoc entry0
      let record_0 := parse_0_txt t doc0
      let doc8 ← readDoc entry8
      let record_8 := parse_8_txt doc8
      match record_0, record_8 with
      | some r0, some r8 => pure (some (dmerge r0 r8))
      | _, _ => pure none
  | _, _ => Except.ok none

/-- One immediate entry of the root directory as the walker in `main`
classifies it: not a directory, a directory without a `menuTabs`
subdirectory, or a directory with one. -/
inductive RootEntry where
  | notDir
  | noMenuTabs
  | withMenuTabs (m : MenuDir)

/-- The accumulation loop of `main`: walk the root entries in order,
keep every truthy record (`if record:` in Python: non-`None` and a
non-empty dictionary). -/
def walk (t : Transform) : List RootEntry → Except PyError (List Record)
  | [] => Except.ok []
  | entry :: rest =>
    match entry with
    | RootEntry.withMenuTabs m => do
        let record ← process_directory t m
        let tail ← walk t rest
        match record with
        | some r => if r.isEmpty then pure tail else pure (r :: tail)
        | none => pure tail
    | _ => walk t rest

/-- The fixed column list of `main`. -/
def csv_columns : List String :=
  ["projection_x", "projection_y", "latitude", "longitude",
   "name", "translation", "description"]

/-- `write_csv` of `src/main.py` as the rows it hands to the CSV writer:
the header row, then one row per record, each cell taken from the
`filtered_data` dictionary built with `data.get(key, '')`. -/
def write_csv (data_list : List Record) (columns : List String) : List (List Value) :=
  (columns.map Value.s) ::
    data_list.map (fun data =>
      let filtered_data := columns.foldl
        (fun acc key => dinsert acc key ((dget data key).getD (Value.s ""))) []
      columns.map (fun key => (dget filtered_data key).getD (Value.s "")))

/-- `main` of `src/main.py` (the name `main` is reserved in Lean): walk
the root entries, then serialize.  An uncaught exception during the walk
aborts before anything is written. -/
def mainRun (t : Transform) (entries : List RootEntry) : Except PyError (List (List Value)) :=
  (walk t entries).map (fun data_list => write_csv data_list csv_columns)

/-- Helper following the wording of the specification: the value of the
`htmlText` attribute of the top-level element named `nm`, the empty
string when the element or the attribute is absent. -/
def metaField (root : XmlElem) (nm : String) : String :=
  match findChild root nm with
  | some e => attrGet e "htmlText" ""
  | none => ""

/-- A concrete transformer standing in for the external library in
closed evaluations; the program never inspects more than the success or
failure of a call. -/
def transformDummy : Transform := fun _ _ => Except.error ()

/-- Every descriptor path of the directory that exists is a regular
file, so every `open` in `process_directory` succeeds. -/
def MenuDir.readable (m : MenuDir) : Bool :=
  (Option.all Entry.isFile m.file0) && (Option.all Entry.isFile m.file8)

def RootEntry.readable : RootEntry → Bool
  | .withMenuTabs m => m.readable
  | _ => true

/-! ## Helper lemmas shared by several results -/

/-- `parse_8_txt` on a well-formed document always yields the three keys
`name`, `translation`, `description` in order, each valued by the
`htmlText` attribute of the `name`, `translation` and `explanation`
top-level elements respectively. -/
theorem parse8_shape (root : XmlElem) :
    parse_8_txt (some root) =
      some [("name", Value.s (metaField root "name")),
            ("translation", Value.s (metaField root "translation")),
            ("description", Value.s (metaField root "explanation"))] := by
  simp only [parse_8_txt, elementsList, List.foldl_cons, List.foldl_nil]
  cases h1 : findChild root "name" <;>
    cases h2 : findChild root "translation" <;>
      cases h3 : findChild root "explanation" <;>
        simp only [metaField, h1, h2, h3] <;> rfl

/-- `parse_0_txt` on a well-formed document always yields the four keys
`projection_x`, `projection_y`, `latitude`, `longitude` in order. -/
theorem parse0_shape (t : Transform) (root : XmlElem) :
    ∃ a b c d, parse_0_txt t (some root) =
      some [("projection_x", a), ("projection_y", b), ("latitude", c), ("longitude", d)] := by
  cases hfind : findChild root "projection" with
  | none =>
      refine ⟨Value.s "", Value.s "", Value.s "", Value.s "", ?_⟩
      simp only [parse_0_txt, hfind]
      rfl
  | some pe =>
      cases hx : pyFloat? (attrGet pe "x" "") with
      | none =>
          refine ⟨Value.s (attrGet pe "x" ""), Value.s (attrGet pe "y" ""),
            Value.s "", Value.s "", ?_⟩
          simp only [parse_0_txt, hfind, hx]
          rfl
      | some easting =>
          cases hy : pyFloat? (attrGet pe "y" "") with
          | none =>
              refine ⟨Value.s (attrGet pe "x" ""), Value.s (attrGet pe "y" ""),
                Value.s "", Value.s "", ?_⟩
              simp only [parse_0_txt, hfind, hx, hy]
              rfl
          | some northing =>
              cases ht : t easting northing with
              | ok p =>
                  obtain ⟨lon, lat⟩ := p
                  refine ⟨Value.s (attrGet pe "x" ""), Value.s (attrGet pe "y" ""),
                    Value.n lat, Value.n lon, ?_⟩
                  simp only [parse_0_txt, hfind, hx, hy, ht]
                  rfl
              | error u =>
                  refine ⟨Value.s (attrGet pe "x" ""), Value.s (attrGet pe "y" ""),
                    Value.s "", Value.s "", ?_⟩
                  simp only [parse_0_txt, hfind, hx, hy, ht]
                  rfl

theorem exbind_ok {ε α β : Type} (a : α) (f : α → Except ε β) :
    (Except.ok a : Except ε α).bind f = f a := rfl

theorem exbind_error {ε α β : Type} (e : ε) (f : α → Except ε β) :
    (Except.error e : Except ε α).bind f = Except.error e := rfl

theorem exmap_ok {ε α β : Type} (a : α) (f : α → β) :
    (Except.ok a : Except ε α).map f = Except.ok (f a) := rfl

theorem exmap_error {ε α β : Type} (e : ε) (f : α → β) :
    (Except.error e : Except ε α).map f = Except.error e := rfl

/-- Unfolding of `walk` at a `menuTabs` directory. -/
theorem walk_cons_menu (t : Transform) (m : MenuDir) (rest : List RootEntry) :
    walk t (RootEntry.withMenuTabs m :: rest) =
      (process_directory t m).bind (fun record =>
        (walk t rest).bind (fun tail =>
          match record with
          | some r => if r.isEmpty then Except.ok tail else Except.ok (r :: tail)
          | none => Except.ok tail)) := rfl

theorem walk_cons_notDir (t : Transform) (rest : List RootEntry) :
    walk t (RootEntry.notDir :: rest) = walk t rest := rfl

theorem walk_cons_noMenuTabs (t : Transform) (rest : List RootEntry) :
    walk t (RootEntry.noMenuTabs :: rest) = walk t rest := rfl

/-- A missing `0.txt` path: the directory is skipped before any read. -/
theorem process_none0 (t : Transform) (f8 : Option Entry) :
    process_directory t ⟨none, f8⟩ = Except.ok none := rfl

/-- A missing `8.txt` path: the directory is skipped before any read. -/
theorem process_none8 (t : Transform) (e0 : Entry) :
    process_directory t ⟨some e0, none⟩ = Except.ok none := rfl

/-- A `0.txt` path that exists as a directory: `open` raises. -/
theorem process_dir0 (t : Transform) (e8 : Entry) :
    process_directory t ⟨some Entry.dir, some e8⟩ =
      Except.error PyError.isADirectoryError := rfl

/-- An `8.txt` path that exists as a directory: `open` raises after
`0.txt` was read and parsed. -/
theorem process_dir8 (t : Transform) (d0 : Option XmlElem) :
    process_directory t ⟨some (Entry.file d0), some Entry.dir⟩ =
      Except.error PyError.isADirectoryError := rfl

/-- Both paths are regular files: the outcome is decided by the two
parses. -/
theorem process_files (t : Transform) (d0 d8 : Option XmlElem) :
    process_directory t ⟨some (Entry.file d0), some (Entry.file d8)⟩ =
      match parse_0_txt t d0, parse_8_txt d8 with
      | some r0, some r8 => Except.ok (some (dmerge r0 r8))
      | _, _ => Except.ok none := rfl

/-- When both descriptor paths of a directory are absent or regular
files, `process_directory` never raises. -/
theorem process_total (t : Transform) (m : MenuDir) (h : m.readable = true) :
    ∃ o, process_directory t m = Except.ok o := by
  obtain ⟨f0, f8⟩ := m
  cases f0 with
  | none => exact ⟨none, process_none0 t f8⟩
  | some e0 =>
      cases f8 with
      | none => exact ⟨none, process_none8 t e0⟩
      | some e8 =>
          cases e0 with
          | dir => simp [MenuDir.readable, Entry.isFile, Option.all] at h
          | file d0 =>
              cases e8 with
              | dir => simp [MenuDir.readable, Entry.isFile, Option.all] at h
              | file d8 =>
                  rw [process_files]
                  cases h0 : parse_0_txt t d0 with
                  | none => exact ⟨none, by cases h8 : parse_8_txt d8 <;> rfl⟩
                  | some r0 =>
                      cases h8 : parse_8_txt d8 with
                      | none => exact ⟨none, rfl⟩
                      | some r8 => exact ⟨some (dmerge r0 r8), rfl⟩

/-- When every entry of the walk is readable, the walk never raises. -/
theorem walk_total (t : Transform) (es : List RootEntry)
    (h : ∀ e ∈ es, RootEntry.readable e = true) :
    ∃ rs, walk t es = Except.ok rs := by
  induction es with
  | nil => exact ⟨[], rfl⟩
  | cons a l ih =>
      obtain ⟨rs, hrs⟩ := ih (fun e he => h e (List.mem_cons_of_mem _ he))
      cases a with
      | notDir => exact ⟨rs, by rw [walk_cons_notDir]; exact hrs⟩
      | noMenuTabs => exact ⟨rs, by rw [walk_cons_noMenuTabs]; exact hrs⟩
      | withMenuTabs m =>
          have hm : MenuDir.readable m = true := by
            have hh := h _ (List.mem_cons_self _ _)
            simpa [RootEntry.readable] using hh
          obtain ⟨o, ho⟩ := process_total t m hm
          cases o with
          | none => exact ⟨rs, by rw [walk_cons_menu, ho, exbind_ok, hrs, exbind_ok]⟩
          | some r =>
              cases hre : r.isEmpty with
              | true =>
                  exact ⟨rs, by
                    rw [walk_cons_menu, ho, exbind_ok, hrs, exbind_ok]
                    simp [hre]⟩
              | false =>
                  exact ⟨r :: rs, by
                    rw [walk_cons_menu, ho, exbind_ok, hrs, exbind_ok]
                    simp [hre]⟩

/-- A directory whose record comes back `none` contributes nothing: the
walk over any surrounding list is unchanged. -/
theorem walk_skip (t : Transform) (m : MenuDir)
    (hproc : process_directory t m = Except.ok none) (es1 es2 : List RootEntry) :
    walk t (es1 ++ RootEntry.withMenuTabs m :: es2) = walk t (es1 ++ es2) := by
  induction es1 with
  | nil =>
      rw [List.nil_append, List.nil_append, walk_cons_menu, hproc, exbind_ok]
      cases hw : walk t es2 with
      | ok rs => rw [exbind_ok]
      | error e => rw [exbind_error]
  | cons a l ih =>
      cases a with
      | notDir =>
          rw [List.cons_append, List.cons_append, walk_cons_notDir, walk_cons_notDir, ih]
      | noMenuTabs =>
          rw [List.cons_append, List.cons_append, walk_cons_noMenuTabs, walk_cons_noMenuTabs, ih]
      | withMenuTabs m' =>
          rw [List.cons_append, List.cons_append, walk_cons_menu, walk_cons_menu, ih]

/-- Whether an `Except` value is a success. -/
def exceptIsOk {ε α : Type} : Except ε α → Bool
  | Except.ok _ => true
  | Except.error _ => false

/-! ## Claims -/

/-- A metadata descriptor whose only top-level element is named
`description`, carrying `htmlText="X"`. -/
def rootC1 : XmlElem :=
  XmlElem.mk "node" [] [XmlElem.mk "description" [("htmlText", "X")] []]

/-- Claim C1, counterexample: the output field `description` is NOT taken
from the `htmlText` attribute of the XML element named `description`.  On
a document whose `description` element carries `htmlText="X"` (and which
has no `explanation` element), the parser emits the empty string, not
`X`: the source tuple list maps the element named `explanation` to the
output key `description`. -/
theorem description_element_counterexample :
    metaField rootC1 "description" = "X" ∧
      parse_8_txt (some rootC1) =
        some [("name", Value.s ""), ("translation", Value.s ""),
              ("description", Value.s "")] ∧
      Value.s "" ≠ Value.s "X" :=
  ⟨rfl, rfl, by decide⟩

/-- Claim C1, amended: for every metadata descriptor that parses as
well-formed markup, the output field `description` is taken from the
`htmlText` attribute of the top-level XML element named `explanation`
(empty string if the element or the attribute is absent), per the
declarative tuple list (name, name, htmlText), (translation, translation,
htmlText), (explanation, description, htmlText). -/
theorem parse8_field_mapping (root : XmlElem) :
    ∃ r, parse_8_txt (some root) = some r ∧
      dget r "name" = some (Value.s (metaField root "name")) ∧
      dget r "translation" = some (Value.s (metaField root "translation")) ∧
      dget r "description" = some (Value.s (metaField root "explanation")) :=
  ⟨_, parse8_shape root, rfl, rfl, rfl⟩

/-- A root listing with a `menuTabs` directory whose `0.txt` path exists
but is itself a directory: `os.path.exists` passes, `open` raises. -/
def crashEntries : List RootEntry :=
  [RootEntry.withMenuTabs ⟨some Entry.dir, some (Entry.file none)⟩]

/-- Claim C2, counterexample: not every error raised while reading a
descriptor path that exists is recovered.  When the `0.txt` path exists
but is a directory, the existence check passes, `open` raises
`IsADirectoryError`, no handler catches it, and the whole run aborts with
the error instead of reaching the CSV writer. -/
theorem mainRun_crash_counterexample :
    mainRun transformDummy crashEntries = Except.error PyError.isADirectoryError ∧
      exceptIsOk (mainRun transformDummy crashEntries) = false :=
  ⟨rfl, rfl⟩

/-- Claim C2, amended: every modelled error other than opening an
existing descriptor path that is not a regular file is locally recovered:
whenever every existing `0.txt`/`8.txt` path in the tree is a regular
file, the process runs to completion over the whole directory set and
produces the CSV rows (malformed markup, missing files, missing elements
or attributes, bad numbers and transform failures all degrade or skip
locally).  An existing descriptor path that is a directory instead
aborts the run with an uncaught error. -/
theorem mainRun_total_when_readable (t : Transform) (es : List RootEntry)
    (h : ∀ e ∈ es, RootEntry.readable e = true) :
    ∃ rows, mainRun t es = Except.ok rows := by
  obtain ⟨rs, hrs⟩ := walk_total t es h
  exact ⟨write_csv rs csv_columns, by rw [mainRun, hrs, exmap_ok]⟩

/-- A readable corpus: a stray file at top level, a directory whose
descriptors are malformed or missing, and a directory with no files. -/
def okEntries : List RootEntry :=
  [RootEntry.notDir,
   RootEntry.withMenuTabs ⟨some (Entry.file none), some (Entry.file none)⟩,
   RootEntry.withMenuTabs ⟨none, some (Entry.file none)⟩,
   RootEntry.noMenuTabs]

theorem mainRun_total_when_readable_witness :
    (∀ e ∈ okEntries, RootEntry.readable e = true) ∧
      ∃ rows, mainRun transformDummy okEntries = Except.ok rows :=
  ⟨by decide, mainRun_total_when_readable transformDummy okEntries (by decide)⟩

/-- Claim C3: a directory whose `0.txt` or `8.txt` content fails to parse
as well-formed markup yields no record, contributes no row, and the
walker continues over the remaining directories unchanged. -/
theorem malformed_rejects_directory (t : Transform) (m : MenuDir) (d0 d8 : Option XmlElem)
    (h0 : m.file0 = some (Entry.file d0)) (h8 : m.file8 = some (Entry.file d8))
    (hbad : d0 = none ∨ d8 = none) (es1 es2 : List RootEntry) :
    process_directory t m = Except.ok none ∧
      walk t (es1 ++ RootEntry.withMenuTabs m :: es2) = walk t (es1 ++ es2) := by
  obtain ⟨f0, f8⟩ := m
  dsimp only at h0 h8
  subst h0
  subst h8
  have hproc : process_directory t ⟨some (Entry.file d0), some (Entry.file d8)⟩
      = Except.ok none := by
    rw [process_files]
    rcases hbad with hb | hb
    · subst hb
      cases h8p : parse_8_txt d8 <;> rfl
    · subst hb
      cases h0p : parse_0_txt t d0 <;> rfl
  exact ⟨hproc, walk_skip t _ hproc es1 es2⟩

/-- A directory whose `0.txt` is malformed markup next to a well-formed
`8.txt`. -/
def mdC3 : MenuDir :=
  ⟨some (Entry.file none), some (Entry.file (some (XmlElem.mk "r" [] [])))⟩

theorem malformed_rejects_directory_witness :
    process_directory transformDummy mdC3 = Except.ok none ∧
      walk transformDummy [RootEntry.withMenuTabs mdC3] = walk transformDummy [] :=
  malformed_rejects_directory transformDummy mdC3 none (some (XmlElem.mk "r" [] []))
    rfl rfl (Or.inl rfl) [] []

/-- Shared by C4 and C10: with a `projection` element present, a failing
float conversion of either attribute degrades `latitude` and `longitude`
to the empty string while both raw attribute strings are kept. -/
theorem parse0_badfloat (t : Transform) (root pe : XmlElem)
    (hfind : findChild root "projection" = some pe)
    (hbad : pyFloat? (attrGet pe "x" "") = none ∨ pyFloat? (attrGet pe "y" "") = none) :
    ∃ r, parse_0_txt t (some root) = some r ∧
      dget r "projection_x" = some (Value.s (attrGet pe "x" "")) ∧
      dget r "projection_y" = some (Value.s (attrGet pe "y" "")) ∧
      dget r "latitude" = some (Value.s "") ∧
      dget r "longitude" = some (Value.s "") := by
  refine ⟨[("projection_x", Value.s (attrGet pe "x" "")),
           ("projection_y", Value.s (attrGet pe "y" "")),
           ("latitude", Value.s ""), ("longitude", Value.s "")],
    ?_, rfl, rfl, rfl, rfl⟩
  rcases hbad with hb | hb
  · simp only [parse_0_txt, hfind, hb]
    rfl
  · cases hx : pyFloat? (attrGet pe "x" "") with
    | none =>
        simp only [parse_0_txt, hfind, hx]
        rfl
    | some easting =>
        simp only [parse_0_txt, hfind, hx, hb]
        rfl

/-- Claim C4: a `projection` element whose `x` or `y` attribute value
does not parse as a float yields latitude and longitude equal to the
empty string, with `projection_x`/`projection_y` keeping the raw
attribute strings verbatim. -/
theorem invalid_coordinates_degrade (t : Transform) (root pe : XmlElem)
    (hfind : findChild root "projection" = some pe)
    (hbad : pyFloat? (attrGet pe "x" "") = none ∨ pyFloat? (attrGet pe "y" "") = none) :
    ∃ r, parse_0_txt t (some root) = some r ∧
      dget r "projection_x" = some (Value.s (attrGet pe "x" "")) ∧
      dget r "projection_y" = some (Value.s (attrGet pe "y" "")) ∧
      dget r "latitude" = some (Value.s "") ∧
      dget r "longitude" = some (Value.s "") :=
  parse0_badfloat t root pe hfind hbad

/-- A spatial descriptor carrying `easting="abc"`. -/
def peC4 : XmlElem := XmlElem.mk "projection" [("x", "abc"), ("y", "12")] []

def rootC4 : XmlElem := XmlElem.mk "node" [] [peC4]

theorem invalid_coordinates_degrade_witness :
    (findChild rootC4 "projection" = some peC4 ∧
        pyFloat? (attrGet peC4 "x" "") = none) ∧
      ∃ r, parse_0_txt transformDummy (some rootC4) = some r ∧
        dget r "projection_x" = some (Value.s (attrGet peC4 "x" "")) ∧
        dget r "projection_y" = some (Value.s (attrGet peC4 "y" "")) ∧
        dget r "latitude" = some (Value.s "") ∧
        dget r "longitude" = some (Value.s "") :=
  ⟨⟨rfl, rfl⟩, invalid_coordinates_degrade transformDummy rootC4 peC4 rfl (Or.inl rfl)⟩

/-- Claim C5: when both files parse but the spatial descriptor has no
top-level `projection` element, the record is not rejected: the four
spatial fields are empty strings and the metadata fields are still
populated from the second descriptor. -/
theorem no_projection_not_rejected (t : Transform) (root0 root8 : XmlElem)
    (h : findChild root0 "projection" = none) :
    ∃ r, process_directory t
        ⟨some (Entry.file (some root0)), some (Entry.file (some root8))⟩
        = Except.ok (some r) ∧
      dget r "projection_x" = some (Value.s "") ∧
      dget r "projection_y" = some (Value.s "") ∧
      dget r "latitude" = some (Value.s "") ∧
      dget r "longitude" = some (Value.s "") ∧
      dget r "name" = some (Value.s (metaField root8 "name")) ∧
      dget r "translation" = some (Value.s (metaField root8 "translation")) ∧
      dget r "description" = some (Value.s (metaField root8 "explanation")) := by
  have h0 : parse_0_txt t (some root0) =
      some [("projection_x", Value.s ""), ("projection_y", Value.s ""),
            ("latitude", Value.s ""), ("longitude", Value.s "")] := by
    simp only [parse_0_txt, h]
    rfl
  refine ⟨[("projection_x", Value.s ""), ("projection_y", Value.s ""),
           ("latitude", Value.s ""), ("longitude", Value.s ""),
           ("name", Value.s (metaField root8 "name")),
           ("translation", Value.s (metaField root8 "translation")),
           ("description", Value.s (metaField root8 "explanation"))],
    ?_, rfl, rfl, rfl, rfl, rfl, rfl, rfl⟩
  rw [process_files, h0, parse8_shape]
  rfl

/-- A directory matching testable property 5 of the specification: no
`projection` element, and metadata `Foo`, `Bar`, `Baz`. -/
def root0C5 : XmlElem := XmlElem.mk "r" [] []

def root8C5 : XmlElem :=
  XmlElem.mk "r" []
    [XmlElem.mk "name" [("htmlText", "Foo")] [],
     XmlElem.mk "translation" [("htmlText", "Bar")] [],
     XmlElem.mk "explanation" [("htmlText", "Baz")] []]

theorem no_projection_not_rejected_witness :
    findChild root0C5 "projection" = none ∧
      ∃ r, process_directory transformDummy
          ⟨some (Entry.file (some root0C5)), some (Entry.file (some root8C5))⟩
          = Except.ok (some r) ∧
        dget r "projection_x" = some (Value.s "") ∧
        dget r "projection_y" = some (Value.s "") ∧
        dget r "latitude" = some (Value.s "") ∧
        dget r "longitude" = some (Value.s "") ∧
        dget r "name" = some (Value.s (metaField root8C5 "name")) ∧
        dget r "translation" = some (Value.s (metaField root8C5 "translation")) ∧
        dget r "description" = some (Value.s (metaField root8C5 "explanation")) :=
  ⟨rfl, no_projection_not_rejected transformDummy root0C5 root8C5 rfl⟩

/-- A `menuTabs` directory whose `0.txt` path exists but is a directory,
next to a well-formed `8.txt`. -/
def mdC6 : MenuDir :=
  ⟨some Entry.dir, some (Entry.file (some (XmlElem.mk "r" [] [])))⟩

/-- Claim C6, counterexample: the presence check is NOT a check for
regular files.  With a `0.txt` that exists but is not a regular file (a
directory), the claim says the builder returns no record; instead the
`os.path.exists` check passes and the uncaught `IsADirectoryError` of
`open` escapes, so the builder neither returns no record nor a
record. -/
theorem regular_file_check_counterexample :
    Entry.isFile Entry.dir = false ∧
      process_directory transformDummy mdC6 = Except.error PyError.isADirectoryError ∧
      exceptIsOk (process_directory transformDummy mdC6) = false :=
  ⟨rfl, rfl, rfl⟩

/-- Claim C6, amended: the presence check is an existence check
(`os.path.exists`, also true of directories).  For every directory in
which either fixed-name descriptor path does not exist at all, the
builder returns no record and that directory contributes no row to the
output. -/
theorem absent_file_skips (t : Transform) (m : MenuDir)
    (h : m.file0 = none ∨ m.file8 = none) (es1 es2 : List RootEntry) :
    process_directory t m = Except.ok none ∧
      walk t (es1 ++ RootEntry.withMenuTabs m :: es2) = walk t (es1 ++ es2) := by
  obtain ⟨f0, f8⟩ := m
  dsimp only at h
  have hproc : process_directory t ⟨f0, f8⟩ = Except.ok none := by
    rcases h with hb | hb
    · subst hb
      exact process_none0 t f8
    · subst hb
      cases f0 with
      | none => exact process_none0 t none
      | some e0 => exact process_none8 t e0
  exact ⟨hproc, walk_skip t _ hproc es1 es2⟩

/-- A directory with no `0.txt` at all. -/
def mdC6w : MenuDir := ⟨none, some (Entry.file (some (XmlElem.mk "r" [] [])))⟩

theorem absent_file_skips_witness :
    process_directory transformDummy mdC6w = Except.ok none ∧
      walk transformDummy [RootEntry.withMenuTabs mdC6w] = walk transformDummy [] :=
  absent_file_skips transformDummy mdC6w (Or.inl rfl) [] []

/-- Claim C7: the exporter emits the header row with exactly the seven
column names in order, then one row per record, each cell looked up by
column name with the empty string as default. -/
theorem write_csv_layout (data_list : List Record) :
    write_csv data_list csv_columns =
      (csv_columns.map Value.s) ::
        data_list.map (fun data =>
          csv_columns.map (fun key => (dget data key).getD (Value.s ""))) := by
  simp only [write_csv]
  congr 1

/-- Claim C9: a record the builder returns is never `None` degenerately:
it holds exactly the seven output keys in column order, hence is a
non-empty mapping, so the truthiness test in the walker keeps every
accepted directory. -/
theorem record_keys_complete (t : Transform) (m : MenuDir) (r : Record)
    (rest : List RootEntry) (h : process_directory t m = Except.ok (some r)) :
    r.map Prod.fst = csv_columns ∧ r ≠ [] ∧
      walk t (RootEntry.withMenuTabs m :: rest) =
        (walk t rest).map (fun tail => r :: tail) := by
  obtain ⟨f0, f8⟩ := m
  cases f0 with
  | none =>
      rw [process_none0] at h
      simp at h
  | some e0 =>
      cases f8 with
      | none =>
          rw [process_none8] at h
          simp at h
      | some e8 =>
          cases e0 with
          | dir =>
              rw [process_dir0] at h
              simp at h
          | file d0 =>
              cases e8 with
              | dir =>
                  rw [process_dir8] at h
                  simp at h
              | file d8 =>
                  cases d0 with
                  | none =>
                      have hp0 : parse_0_txt t none = none := rfl
                      rw [process_files, hp0] at h
                      cases h8p : parse_8_txt d8 <;> rw [h8p] at h <;> simp at h
                  | some root0 =>
                      cases d8 with
                      | none =>
                          have hp8 : parse_8_txt none = none := rfl
                          rw [process_files, hp8] at h
                          cases h0p : parse_0_txt t (some root0) <;>
                            rw [h0p] at h <;> simp at h
                      | some root8 =>
                          obtain ⟨a, b, c, d, h0s⟩ := parse0_shape t root0
                          have h8s := parse8_shape root8
                          rw [process_files, h0s, h8s] at h
                          simp only [Except.ok.injEq, Option.some.injEq] at h
                          subst h
                          refine ⟨rfl, List.cons_ne_nil _ _, ?_⟩
                          rw [walk_cons_menu, process_files, h0s, h8s]
                          cases hw : walk t rest <;> rfl

/-- A fully valid directory: both descriptors well-formed, no optional
elements, so every field degrades to the empty string. -/
def mdC9 : MenuDir :=
  ⟨some (Entry.file (some (XmlElem.mk "r" [] []))),
   some (Entry.file (some (XmlElem.mk "r" [] [])))⟩

def recC9 : Record :=
  [("projection_x", Value.s ""), ("projection_y", Value.s ""),
   ("latitude", Value.s ""), ("longitude", Value.s ""),
   ("name", Value.s ""), ("translation", Value.s ""), ("description", Value.s "")]

theorem record_keys_complete_witness :
    process_directory transformDummy mdC9 = Except.ok (some recC9) ∧
      (recC9.map Prod.fst = csv_columns ∧ recC9 ≠ [] ∧
        walk transformDummy [RootEntry.withMenuTabs mdC9] =
          (walk transformDummy []).map (fun tail => recC9 :: tail)) :=
  ⟨rfl, record_keys_complete transformDummy mdC9 recC9 [] rfl⟩

/-- Claim C10: a `projection` element lacking the `x` or `y` attribute:
the missing attribute defaults to the empty string, whose numeric
conversion fails, so that projection field is the empty string and both
latitude and longitude are empty strings, without rejecting the
record. -/
theorem missing_attribute_degrades (t : Transform) (root pe : XmlElem)
    (hfind : findChild root "projection" = some pe)
    (hmiss : pe.attrs.lookup "x" = none ∨ pe.attrs.lookup "y" = none) :
    ∃ r, parse_0_txt t (some root) = some r ∧
      dget r "latitude" = some (Value.s "") ∧
      dget r "longitude" = some (Value.s "") ∧
      (pe.attrs.lookup "x" = none → dget r "projection_x" = some (Value.s "")) ∧
      (pe.attrs.lookup "y" = none → dget r "projection_y" = some (Value.s "")) := by
  have hget : ∀ a, pe.attrs.lookup a = none → attrGet pe a "" = "" := by
    intro a ha
    simp [attrGet, ha]
  have hbad : pyFloat? (attrGet pe "x" "") = none ∨ pyFloat? (attrGet pe "y" "") = none := by
    rcases hmiss with hb | hb
    · exact Or.inl (by rw [hget _ hb]; rfl)
    · exact Or.inr (by rw [hget _ hb]; rfl)
  obtain ⟨r, hr, hpx, hpy, hlat, hlon⟩ := parse0_badfloat t root pe hfind hbad
  refine ⟨r, hr, hlat, hlon, ?_, ?_⟩
  · intro hx
    rw [hpx, hget _ hx]
  · intro hy
    rw [hpy, hget _ hy]

/-- A `projection` element with no `x` attribute. -/
def peC10 : XmlElem := XmlElem.mk "projection" [("y", "12")] []

def rootC10 : XmlElem := XmlElem.mk "node" [] [peC10]

theorem missing_attribute_degrades_witness :
    (findChild rootC10 "projection" = some peC10 ∧
        peC10.attrs.lookup "x" = none) ∧
      ∃ r, parse_0_txt transformDummy (some rootC10) = some r ∧
        dget r "latitude" = some (Value.s "") ∧
        dget r "longitude" = some (Value.s "") ∧
        (peC10.attrs.lookup "x" = none → dget r "projection_x" = some (Value.s "")) ∧
        (peC10.attrs.lookup "y" = none → dget r "projection_y" = some (Value.s "")) :=
  ⟨⟨rfl, rfl⟩, missing_attribute_degrades transformDummy rootC10 peC10 rfl (Or.inl rfl)⟩
